import Mathlib

/-!
Verification development for the focus-session screen of the langlockin app.

The embedded code is `SessionScreen` (the session lifecycle logic): the main
countdown interval (`startTimer`), the grace-period interval armed on
background entry for free users (`handleAppBackground`), the foreground
cancellation (`handleAppForeground`), the skip entry point (`handleSkip`),
the teardown paths (`stopSession`, `cleanup`), and the audio setup
(`initializeAudio` over `getTrackAssetById` from `MusicList`).

Modelling conventions:
- React `useState` values and `useRef` cells become fields of `SessionState`.
- `setInterval` scheduling is explicit: `timerArmed` is true while the main
  interval is scheduled; `liveGraceTimers` counts scheduled grace intervals
  (the source can leak one: `handleAppBackground` overwrites
  `graceTimerRef.current` without a prior `clearInterval`, so the count can
  exceed one while `graceRefArmed` tracks only the newest handle).
- `Alert.alert` calls become an append-only `notifs` log, one `Notif`
  constructor per call site in the source.
- The audio handle `soundRef` becomes `sound : Option Bool`, where `some b`
  is a loaded sound whose `stopAsync`/`unloadAsync` rejects iff `b = true`;
  `teardowns` counts the teardown attempts made on it.  `stopSession` has no
  try/catch around its teardown in the source, so it is modelled as
  returning the post-state paired with a flag recording whether the
  rejection escaped (the callers ignore the returned promise, so an escaped
  rejection skips the remainder of `stopSession`, in particular the
  terminal alert).  `cleanup` wraps its teardown in try/catch and is total.
- One second of elapsed time (`stepSecond`) fires the main interval callback
  then, if a grace interval is scheduled, the grace callback.  This is
  faithful whenever at most one grace interval is scheduled, which holds on
  every trace the elapse-based theorems below quantify over.

The `Phase` enumeration is the specification's phase vocabulary (spec §3);
`phase` is the observation map interpreting it over the code state: a
terminal phase is read off the first terminal alert shown, `GraceActive`
off a non-null `graceTimeRemaining`.  The code itself has no phase variable
and, in particular, never produces the spec's `Skipped` value.
-/

/-- The `Alert.alert` call sites of `SessionScreen` and `initializeAudio`,
one constructor per call site, in source order. -/
inductive Notif
  /-- "🎉 Session Complete!" — emitted by `stopSession(true)`. -/
  | sessionComplete
  /-- "❌ Session Failed" ("You left the app for too long. Session has been
  terminated.") — emitted by `stopSession(false)`. -/
  | sessionFailed
  /-- "Error: Music track not found" — emitted by `initializeAudio` when
  `getTrackAssetById` returns null. -/
  | trackNotFound
  /-- "Error: Failed to load music track" — emitted by the catch branch of
  `initializeAudio`. -/
  | loadFailed
  /-- "Premium Feature" — the skip rejection shown to free users. -/
  | premiumFeature
deriving DecidableEq, Repr

/-- The specification's phase enumeration (spec §3).  The code has no phase
variable; `phase` below interprets these values over the code state. -/
inductive Phase
  | Running
  | GraceActive
  | Completed
  | Failed
  | Skipped
deriving DecidableEq, Repr

/-- The React Native `AppStateStatus` union:
`'active' | 'background' | 'inactive' | 'unknown' | 'extension'`. -/
inductive AppStateStatus
  | active
  | background
  | inactive
  | unknown
  | extension
deriving DecidableEq, Repr

/-- A music track of `MusicList`; the `asset` field (a `require(...)` call,
always present for the listed tracks) is represented by the track's
existence in the list. -/
structure MusicTrack where
  id : String
deriving DecidableEq, Repr

/-- The `musicTracks` catalog of `MusicList.tsx`. -/
def musicTracks : List MusicTrack := [⟨"focus1"⟩, ⟨"focus2"⟩]

/-- `getTrackAssetById` of `MusicList.tsx`:
`musicTracks.find(t => t.id === trackId)`, returning the asset or null. -/
def getTrackAssetById (trackId : String) : Option MusicTrack :=
  musicTracks.find? (fun t => t.id == trackId)

/-- `GRACE_PERIOD_SECONDS = 10` of `SessionScreen`. -/
def GRACE_PERIOD_SECONDS : Int := 10

/-- The mutable state of one mounted `SessionScreen`: the `useState` values,
the `useRef` cells, the set of scheduled intervals, and the observable
side-effect logs. -/
structure SessionState where
  /-- `timeRemaining` state: seconds left on the main countdown. -/
  timeRemaining : Int
  /-- `graceTimeRemaining` state: `number | null`. -/
  graceTimeRemaining : Option Int
  /-- Whether the main `setInterval` of `startTimer` is scheduled
  (`timerIntervalRef.current !== null`). -/
  timerArmed : Bool
  /-- Whether `graceTimerRef.current` is non-null (points at the newest
  grace interval). -/
  graceRefArmed : Bool
  /-- Number of grace intervals currently scheduled.  Exceeds the refs the
  code can still clear when `handleAppBackground` overwrites
  `graceTimerRef.current` without clearing it first. -/
  liveGraceTimers : Nat
  /-- `soundRef.current`: `some b` is a loaded sound whose teardown
  rejects iff `b`. -/
  sound : Option Bool
  /-- Number of audio teardown attempts (`stopAsync`/`unloadAsync`
  sequences initiated). -/
  teardowns : Nat
  /-- The `Alert.alert` calls made so far, in order. -/
  notifs : List Notif
  /-- Whether `backgroundTimeRef.current` is non-null (it is written on
  background entry and cleared on foreground return, never read). -/
  backgroundTimeSet : Bool
  /-- `isPremium`, captured from the auth context at mount. -/
  isPremium : Bool
deriving DecidableEq, Repr

/-- The state at mount, before the mount effect runs:
`timeRemaining` initialized to the session duration in seconds,
everything else empty. -/
def initState (isPremium : Bool) (durationSeconds : Int) : SessionState :=
  { timeRemaining := durationSeconds
    graceTimeRemaining := none
    timerArmed := false
    graceRefArmed := false
    liveGraceTimers := 0
    sound := none
    teardowns := 0
    notifs := []
    backgroundTimeSet := false
    isPremium := isPremium }

/-- `startTimer`: schedules the main once-per-second interval.  Note the
source performs no `duration <= 0` check and fires no immediate
completion: it only schedules the interval. -/
def startTimer (s : SessionState) : SessionState :=
  { s with timerArmed := true }

/-- `initializeAudio`: resolves the track; if unresolved, alerts
"Music track not found" and returns (the session is not failed and the
caller still starts the timer).  If resolution succeeds,
`Audio.Sound.createAsync` either throws (caught: alerts "Failed to load
music track") or yields the sound handle.  `loadResult = none` models the
throwing load, `some b` a loaded sound whose later teardown rejects iff
`b`. -/
def initializeAudio (trackId : String) (loadResult : Option Bool)
    (s : SessionState) : SessionState :=
  match getTrackAssetById trackId with
  | none => { s with notifs := s.notifs ++ [Notif.trackNotFound] }
  | some _ =>
    match loadResult with
    | none => { s with notifs := s.notifs ++ [Notif.loadFailed] }
    | some b => { s with sound := some b }

/-- `clearGraceTimer`: if `graceTimerRef.current` is non-null, clears that
interval and nulls the ref.  Only the newest interval is cleared; a stale
one left by a double `handleAppBackground` stays scheduled. -/
def clearGraceTimer (s : SessionState) : SessionState :=
  if s.graceRefArmed then
    { s with graceRefArmed := false, liveGraceTimers := s.liveGraceTimers - 1 }
  else s

/-- `stopSession(success)`: clears the main interval, calls
`clearGraceTimer`, then — with no try/catch — awaits
`soundRef.current.stopAsync(); unloadAsync()` before nulling the ref and
showing the terminal alert.  The returned flag records whether the audio
teardown rejected; when it does, the rejection escapes `stopSession` and
the remaining statements (nulling `soundRef` and the terminal alert) never
run.  `stopSessionRest` is the part after the timer clearing. -/
def stopSessionRest (success : Bool) (s1 : SessionState) :
    SessionState × Bool :=
  match s1.sound with
  | some true => ({ s1 with teardowns := s1.teardowns + 1 }, true)
  | some false =>
      ({ s1 with
          sound := none
          teardowns := s1.teardowns + 1
          notifs := s1.notifs ++
            [if success then Notif.sessionComplete else Notif.sessionFailed] },
       false)
  | none =>
      ({ s1 with
          notifs := s1.notifs ++
            [if success then Notif.sessionComplete else Notif.sessionFailed] },
       false)

/-- `stopSession(success)`, assembled from its synchronous timer-clearing
prefix and `stopSessionRest`. -/
def stopSession (success : Bool) (s : SessionState) : SessionState × Bool :=
  stopSessionRest success (clearGraceTimer { s with timerArmed := false })

/-- `cleanup` (the unmount effect): clears both intervals, then stops and
unloads the sound inside try/catch — a teardown rejection is caught and
logged, so `cleanup` is total.  On a successful unload the handle is gone;
on a caught failure it is left as it was.  `cleanupRest` is the
try/catch-guarded audio part. -/
def cleanupRest (s1 : SessionState) : SessionState :=
  match s1.sound with
  | some true => { s1 with teardowns := s1.teardowns + 1 }
  | some false => { s1 with sound := none, teardowns := s1.teardowns + 1 }
  | none => s1

/-- `cleanup`, assembled from its timer-clearing prefix and
`cleanupRest`. -/
def cleanup (s : SessionState) : SessionState :=
  cleanupRest (clearGraceTimer { s with timerArmed := false })

/-- `handleSessionComplete`: `stopSession(true)`, promise ignored. -/
def handleSessionComplete (s : SessionState) : SessionState :=
  (stopSession true s).1

/-- `handleGracePeriodExpired`: `clearGraceTimer()` then
`stopSession(false)`, promise ignored. -/
def handleGracePeriodExpired (s : SessionState) : SessionState :=
  (stopSession false (clearGraceTimer s)).1

/-- `handleAppBackground`: for a free user, records the background time,
sets `graceTimeRemaining` to the 10-second grace constant and schedules a
new grace interval, overwriting `graceTimerRef.current` WITHOUT clearing a
pre-existing interval first.  Premium users: no effect.  Note the source
has no guard against the session having already ended. -/
def handleAppBackground (s : SessionState) : SessionState :=
  if s.isPremium then s
  else
    { s with backgroundTimeSet := true
             graceTimeRemaining := some GRACE_PERIOD_SECONDS
             graceRefArmed := true
             liveGraceTimers := s.liveGraceTimers + 1 }

/-- `handleAppForeground`: for a free user with an armed grace ref, clears
the grace interval and resets `graceTimeRemaining` and the background
timestamp; otherwise no-op. -/
def handleAppForeground (s : SessionState) : SessionState :=
  if !s.isPremium && s.graceRefArmed then
    { clearGraceTimer s with
        graceTimeRemaining := none
        backgroundTimeSet := false }
  else s

/-- `handleAppStateChange`: routes `background` and `inactive` to
`handleAppBackground`, `active` to `handleAppForeground`, and does nothing
on any other value. -/
def handleAppStateChange (next : AppStateStatus) (s : SessionState) :
    SessionState :=
  match next with
  | AppStateStatus.background => handleAppBackground s
  | AppStateStatus.inactive => handleAppBackground s
  | AppStateStatus.active => handleAppForeground s
  | AppStateStatus.unknown => s
  | AppStateStatus.extension => s

/-- `handleSkip`: free users get the "Premium Feature" rejection alert and
nothing else changes.  Premium users get a confirmation dialog;
`confirmSkip` is the button pressed (`true` = "Skip", whose `onPress` runs
`stopSession(true)`; `false` = "Cancel", a no-op). -/
def handleSkip (confirmSkip : Bool) (s : SessionState) : SessionState :=
  if !s.isPremium then { s with notifs := s.notifs ++ [Notif.premiumFeature] }
  else if confirmSkip then (stopSession true s).1
  else s

/-- The main interval callback of `startTimer`: fires only while the
interval is scheduled; on `prev <= 1` it runs `handleSessionComplete`
(whose synchronous prefix clears both intervals) and the updater returns
0, otherwise it decrements by one. -/
def mainTick (s : SessionState) : SessionState :=
  if s.timerArmed then
    if s.timeRemaining ≤ 1 then
      { handleSessionComplete s with timeRemaining := 0 }
    else { s with timeRemaining := s.timeRemaining - 1 }
  else s

/-- The grace interval callback of `handleAppBackground`: fires only while
a grace interval is scheduled; a null `graceTimeRemaining` is left null;
on `prev <= 1` it runs `handleGracePeriodExpired` and the updater returns
0, otherwise it decrements by one. -/
def graceTick (s : SessionState) : SessionState :=
  if s.liveGraceTimers = 0 then s
  else
    match s.graceTimeRemaining with
    | none => s
    | some p =>
      if p ≤ 1 then
        { handleGracePeriodExpired s with graceTimeRemaining := some 0 }
      else { s with graceTimeRemaining := some (p - 1) }

/-- One second of elapsed time: the main interval callback, then the grace
callback if a grace interval is scheduled.  Faithful to the event loop
whenever at most one grace interval is scheduled. -/
def stepSecond (s : SessionState) : SessionState :=
  graceTick (mainTick s)

/-- `n` seconds of elapsed time. -/
def elapse : Nat → SessionState → SessionState
  | 0, s => s
  | Nat.succ n, s => elapse n (stepSecond s)

/-- Session start: the mount effect runs `initializeAudio()` then
`startTimer()` on the initial state; the route carries the duration in
minutes, converted to seconds at `useState(duration * 60)`. -/
def beginSession (isPremium : Bool) (durationMinutes : Int)
    (trackId : String) (loadResult : Option Bool) : SessionState :=
  startTimer (initializeAudio trackId loadResult
    (initState isPremium (durationMinutes * 60)))

/-- Which terminal outcome, if any, an alert announces. -/
def terminalNotif : Notif → Option Bool
  | Notif.sessionComplete => some true
  | Notif.sessionFailed => some false
  | _ => none

/-- The first terminal alert shown, if any (`some true` = the success
alert, `some false` = the failure alert). -/
def terminalOutcome (s : SessionState) : Option Bool :=
  s.notifs.findSome? terminalNotif

/-- The specification's phase read off the code state: the first terminal
alert decides `Completed`/`Failed`; otherwise a non-null
`graceTimeRemaining` means `GraceActive`, else `Running`.  The code never
exhibits the spec's `Skipped` value: the skip path shows the same success
alert as natural completion. -/
def phase (s : SessionState) : Phase :=
  match terminalOutcome s with
  | some true => Phase.Completed
  | some false => Phase.Failed
  | none =>
    match s.graceTimeRemaining with
    | some _ => Phase.GraceActive
    | none => Phase.Running

/-- The canonical mid-session state of a running session with `r` seconds
left: main interval scheduled, a loaded well-behaved sound, no alerts yet.
`beginSession` with a resolvable track and a clean load produces exactly
`running p (m * 60)`. -/
def running (p : Bool) (r : Int) : SessionState :=
  { timeRemaining := r
    graceTimeRemaining := none
    timerArmed := true
    graceRefArmed := false
    liveGraceTimers := 0
    sound := some false
    teardowns := 0
    notifs := []
    backgroundTimeSet := false
    isPremium := p }

/-- The state of a free-tier session in its grace window: `r` seconds left
on the main countdown, `g` on the grace countdown, both intervals
scheduled. -/
def gracing (p : Bool) (r g : Int) : SessionState :=
  { running p r with graceTimeRemaining := some g
                     graceRefArmed := true
                     liveGraceTimers := 1
                     backgroundTimeSet := true }

/-- The state after natural completion of a `running` session: countdown at
0, intervals cleared, sound torn down, exactly the success alert shown. -/
def completedSt (p : Bool) : SessionState :=
  { timeRemaining := 0
    graceTimeRemaining := none
    timerArmed := false
    graceRefArmed := false
    liveGraceTimers := 0
    sound := none
    teardowns := 1
    notifs := [Notif.sessionComplete]
    backgroundTimeSet := false
    isPremium := p }

/-- The state after a grace expiry from a `gracing` session: main countdown
frozen at `r`, grace updater left at 0, intervals cleared, sound torn
down, exactly the failure alert shown. -/
def failedSt (p : Bool) (r : Int) : SessionState :=
  { timeRemaining := r
    graceTimeRemaining := some 0
    timerArmed := false
    graceRefArmed := false
    liveGraceTimers := 0
    sound := none
    teardowns := 1
    notifs := [Notif.sessionFailed]
    backgroundTimeSet := true
    isPremium := p }

example : beginSession false 2 "focus1" (some false) = running false 120 := by
  decide

example : stepSecond (running false 3) = running false 2 := by decide

example : stepSecond (running true 1) = completedSt true := by decide

example : handleAppBackground (running false 5) = gracing false 5 10 := by
  decide

example : stepSecond (gracing false 5 1) = failedSt false 4 := by decide

/-! ## Dynamics lemmas: how `stepSecond` acts on the canonical states -/

theorem elapse_succ_shift (n : Nat) (s : SessionState) :
    elapse (n + 1) s = stepSecond (elapse n s) := by
  induction n generalizing s with
  | zero => rfl
  | succ n ih =>
    show elapse (n + 1) (stepSecond s) = _
    rw [ih]
    rfl

theorem elapse_add (m n : Nat) (s : SessionState) :
    elapse (m + n) s = elapse n (elapse m s) := by
  induction m generalizing s with
  | zero => rw [Nat.zero_add]; rfl
  | succ m ih =>
    have h : m + 1 + n = (m + n) + 1 := by omega
    rw [h]
    show elapse (m + n) (stepSecond s) = _
    rw [ih (stepSecond s)]
    rfl

theorem stepSecond_running (p : Bool) (r : Int) (h : 1 < r) :
    stepSecond (running p r) = running p (r - 1) := by
  have h1 : ¬ r ≤ 1 := not_le.mpr h
  simp [stepSecond, mainTick, graceTick, running, h1]

theorem stepSecond_running_complete (p : Bool) (r : Int) (h : r ≤ 1) :
    stepSecond (running p r) = completedSt p := by
  simp [stepSecond, mainTick, graceTick, running, h, handleSessionComplete,
    stopSession, stopSessionRest, clearGraceTimer, completedSt]

theorem stepSecond_completedSt (p : Bool) :
    stepSecond (completedSt p) = completedSt p := rfl

theorem elapse_completedSt (m : Nat) (p : Bool) :
    elapse m (completedSt p) = completedSt p := by
  induction m with
  | zero => rfl
  | succ m ih => rw [elapse_succ_shift, ih, stepSecond_completedSt]

theorem elapse_running (k : Nat) (p : Bool) (r : Int) (h : (k : Int) < r) :
    elapse k (running p r) = running p (r - k) := by
  induction k generalizing r with
  | zero => simp [elapse]
  | succ k ih =>
    have h1 : 1 < r := by push_cast at h; omega
    have h2 : (k : Int) < r - 1 := by push_cast at h ⊢; omega
    have hstep : elapse (k + 1) (running p r) = elapse k (running p (r - 1)) := by
      show elapse k (stepSecond (running p r)) = _
      rw [stepSecond_running p r h1]
    rw [hstep, ih (r - 1) h2]
    congr 1
    push_cast
    ring

theorem stepSecond_gracing (p : Bool) (r g : Int) (hr : 1 < r) (hg : 1 < g) :
    stepSecond (gracing p r g) = gracing p (r - 1) (g - 1) := by
  have h1 : ¬ r ≤ 1 := not_le.mpr hr
  have h2 : ¬ g ≤ 1 := not_le.mpr hg
  simp [stepSecond, mainTick, graceTick, gracing, running, h1, h2]

theorem stepSecond_gracing_expire (p : Bool) (r : Int) (hr : 1 < r) :
    stepSecond (gracing p r 1) = failedSt p (r - 1) := by
  have h1 : ¬ r ≤ 1 := not_le.mpr hr
  simp [stepSecond, mainTick, graceTick, gracing, running, h1,
    handleGracePeriodExpired, stopSession, stopSessionRest, clearGraceTimer,
    failedSt]

theorem elapse_gracing (k : Nat) (p : Bool) (r g : Int)
    (hkr : (k : Int) < r) (hkg : (k : Int) < g) :
    elapse k (gracing p r g) = gracing p (r - k) (g - k) := by
  induction k generalizing r g with
  | zero => simp [elapse]
  | succ k ih =>
    have hr : 1 < r := by push_cast at hkr; omega
    have hg : 1 < g := by push_cast at hkg; omega
    have h2r : (k : Int) < r - 1 := by push_cast at hkr ⊢; omega
    have h2g : (k : Int) < g - 1 := by push_cast at hkg ⊢; omega
    have hstep : elapse (k + 1) (gracing p r g)
        = elapse k (gracing p (r - 1) (g - 1)) := by
      show elapse k (stepSecond (gracing p r g)) = _
      rw [stepSecond_gracing p r g hr hg]
    rw [hstep, ih (r - 1) (g - 1) h2r h2g]
    congr 1 <;> push_cast <;> ring

theorem handleAppBackground_running (r : Int) :
    handleAppBackground (running false r) = gracing false r 10 := rfl

theorem handleAppForeground_gracing (r g : Int) :
    handleAppForeground (gracing false r g) = running false r := rfl

theorem phase_running (p : Bool) (r : Int) : phase (running p r) = Phase.Running :=
  rfl

theorem phase_gracing (p : Bool) (r g : Int) :
    phase (gracing p r g) = Phase.GraceActive := rfl

theorem phase_completedSt (p : Bool) : phase (completedSt p) = Phase.Completed :=
  rfl

theorem phase_failedSt (p : Bool) (r : Int) :
    phase (failedSt p r) = Phase.Failed := rfl

/-! ## Claim theorems -/

/-- C4: for every `durationSeconds > 0`, letting the main timer run
uninterrupted decrements `remainingSeconds` by exactly 1 on each tick
(after `k < d` ticks the state is exactly the running state with `d - k`
seconds left), `remainingSeconds` never becomes negative, the session
reaches `Completed` exactly at tick number `d` with the completion alert
shown exactly once, and the state never changes again afterwards. -/
theorem timer_uninterrupted_behavior (p : Bool) (d : Nat) (hd : 0 < d) :
    (∀ k : Nat, k < d →
      elapse k (running p (d : Int)) = running p ((d : Int) - k))
    ∧ elapse d (running p (d : Int)) = completedSt p
    ∧ phase (elapse d (running p (d : Int))) = Phase.Completed
    ∧ (elapse d (running p (d : Int))).notifs = [Notif.sessionComplete]
    ∧ (∀ k : Nat, k < d → phase (elapse k (running p (d : Int))) = Phase.Running)
    ∧ (∀ m : Nat, elapse (d + m) (running p (d : Int)) = completedSt p)
    ∧ (∀ k : Nat, 0 ≤ (elapse k (running p (d : Int))).timeRemaining) := by
  have hrun : ∀ k : Nat, k < d →
      elapse k (running p (d : Int)) = running p ((d : Int) - k) := by
    intro k hk
    exact elapse_running k p (d : Int) (by exact_mod_cast hk)
  have hcomp : elapse d (running p (d : Int)) = completedSt p := by
    obtain ⟨e, rfl⟩ : ∃ e, d = e + 1 := ⟨d - 1, by omega⟩
    rw [elapse_succ_shift, elapse_running e p _ (by push_cast; omega)]
    have h1 : ((e + 1 : Nat) : Int) - (e : Nat) = 1 := by push_cast; ring
    rw [h1]
    exact stepSecond_running_complete p 1 le_rfl
  have hstab : ∀ m : Nat, elapse (d + m) (running p (d : Int)) = completedSt p := by
    intro m
    rw [elapse_add, hcomp, elapse_completedSt]
  refine ⟨hrun, hcomp, ?_, ?_, ?_, hstab, ?_⟩
  · rw [hcomp]; exact phase_completedSt p
  · rw [hcomp]; rfl
  · intro k hk; rw [hrun k hk]; exact phase_running p _
  · intro k
    rcases lt_or_ge k d with h | h
    · rw [hrun k h]
      show (0 : Int) ≤ (d : Int) - k
      omega
    · have hk : k = d + (k - d) := by omega
      rw [hk, hstab]
      exact le_refl 0

/-- C4 witness: a 3-second session completes exactly at tick 3, with one
completion alert, having decremented once per tick and never gone
negative. -/
theorem timer_uninterrupted_behavior_witness :
    elapse 3 (running false (3 : Int)) = completedSt false
    ∧ phase (elapse 3 (running false (3 : Int))) = Phase.Completed
    ∧ (elapse 3 (running false (3 : Int))).notifs = [Notif.sessionComplete]
    ∧ elapse 2 (running false (3 : Int)) = running false ((3 : Int) - (2 : Nat))
    ∧ 0 ≤ (elapse 1 (running false (3 : Int))).timeRemaining := by
  have h := timer_uninterrupted_behavior false 3 (by decide)
  exact ⟨h.2.1, h.2.2.1, h.2.2.2.1, h.1 2 (by decide), h.2.2.2.2.2.2 1⟩

/-- C2: for a non-premium running session with `d` seconds left at start,
backgrounding after `t` seconds and foregrounding `k < 10` seconds later
(while the main countdown has not yet expired) leaves the phase `Running`
with `remainingSeconds` decreased only by the normal once-per-second
decrement; backgrounding with no foreground return for 10 seconds yields
phase `Failed` with exactly the failure alert (the code's rendering of the
grace-period-expired reason), the only path that ever produces it. -/
theorem grace_window_behavior :
    (∀ t k d : Nat, t + k < d → k < 10 →
      handleAppForeground (elapse k (handleAppBackground
        (elapse t (running false (d : Int)))))
        = running false ((d : Int) - t - k)
      ∧ phase (handleAppForeground (elapse k (handleAppBackground
          (elapse t (running false (d : Int)))))) = Phase.Running)
    ∧ (∀ t d : Nat, t + 10 < d →
      elapse 10 (handleAppBackground (elapse t (running false (d : Int))))
        = failedSt false ((d : Int) - t - 10)
      ∧ phase (elapse 10 (handleAppBackground
          (elapse t (running false (d : Int))))) = Phase.Failed
      ∧ (elapse 10 (handleAppBackground
          (elapse t (running false (d : Int))))).notifs
          = [Notif.sessionFailed]) := by
  constructor
  · intro t k d h1 h2
    rw [elapse_running t false (d : Int) (by omega),
      handleAppBackground_running,
      elapse_gracing k false _ 10 (by omega) (by omega),
      handleAppForeground_gracing]
    exact ⟨rfl, phase_running _ _⟩
  · intro t d h
    rw [elapse_running t false (d : Int) (by omega),
      handleAppBackground_running]
    have e9 : elapse 9 (gracing false ((d : Int) - t) 10)
        = gracing false ((d : Int) - t - 9) 1 := by
      rw [elapse_gracing 9 false ((d : Int) - t) 10 (by omega) (by omega)]
      norm_num
    have hshift : elapse 10 (gracing false ((d : Int) - t) 10)
        = stepSecond (elapse 9 (gracing false ((d : Int) - t) 10)) :=
      elapse_succ_shift 9 (gracing false ((d : Int) - t) 10)
    have harg : (d : Int) - t - 9 - 1 = (d : Int) - t - 10 := by ring
    have e10 : elapse 10 (gracing false ((d : Int) - t) 10)
        = failedSt false ((d : Int) - t - 10) := by
      rw [hshift, e9,
        stepSecond_gracing_expire false ((d : Int) - t - 9) (by omega), harg]
    rw [e10]
    exact ⟨rfl, phase_failedSt _ _, rfl⟩

/-- C2 witness: in a 60-second free session, backgrounding at t = 5 and
foregrounding 3 seconds later leaves the session running with 52 seconds
left; backgrounding at t = 5 with no return fails the session after 10
seconds with the failure alert. -/
theorem grace_window_behavior_witness :
    (handleAppForeground (elapse 3 (handleAppBackground
      (elapse 5 (running false (60 : Int)))))
      = running false ((60 : Int) - (5 : Nat) - (3 : Nat)))
    ∧ elapse 10 (handleAppBackground (elapse 5 (running false (60 : Int))))
      = failedSt false ((60 : Int) - (5 : Nat) - 10)
    ∧ phase (elapse 10 (handleAppBackground
        (elapse 5 (running false (60 : Int))))) = Phase.Failed := by
  refine ⟨(grace_window_behavior.1 5 3 60 (by decide) (by decide)).1, ?_, ?_⟩
  · exact (grace_window_behavior.2 5 60 (by decide)).1
  · exact (grace_window_behavior.2 5 60 (by decide)).2.1

/-- C1 counterexample: `stopSession` is NOT idempotent on observable state.
After a first, successful `stopSession` on a running free session (its
state is terminal: the completion alert has been shown), a second
invocation — the race partner, here with `success = false` — changes the
state: the source re-runs the unconditional `Alert.alert`, emitting a
second terminal notification. -/
theorem stopSession_not_idempotent :
    (stopSession false (stopSession true (running false 60)).1).1
      ≠ (stopSession true (running false 60)).1
    ∧ (stopSession false (stopSession true (running false 60)).1).1.notifs
      = [Notif.sessionComplete, Notif.sessionFailed] := by decide

/-- C1 amended: a second invocation of `stopSession` after a terminal
outcome performs no timer mutation, does not invoke the audio teardown a
second time, does not change the derived phase, and does not throw — but
it DOES emit a second terminal notification (the alert call in the source
is unguarded). -/
theorem stopSession_second_invocation (p : Bool) (r : Int)
    (success1 success2 : Bool) :
    (stopSession success2 (stopSession success1 (running p r)).1).1
      = { (stopSession success1 (running p r)).1 with
          notifs := (stopSession success1 (running p r)).1.notifs ++
            [if success2 then Notif.sessionComplete else Notif.sessionFailed] }
    ∧ (stopSession success2 (stopSession success1 (running p r)).1).2 = false
    ∧ (stopSession success2 (stopSession success1 (running p r)).1).1.teardowns
      = (stopSession success1 (running p r)).1.teardowns
    ∧ (stopSession success2 (stopSession success1 (running p r)).1).1.timerArmed
      = (stopSession success1 (running p r)).1.timerArmed
    ∧ (stopSession success2 (stopSession success1 (running p r)).1).1.liveGraceTimers
      = (stopSession success1 (running p r)).1.liveGraceTimers
    ∧ phase (stopSession success2 (stopSession success1 (running p r)).1).1
      = phase (stopSession success1 (running p r)).1 := by
  cases success1 <;> cases success2 <;>
    simp [stopSession, stopSessionRest, clearGraceTimer, running, phase,
      terminalOutcome, terminalNotif, List.findSome?]

/-- C3 is a code bug: the transition handlers have no guard against an
already-terminal session.  The terminal state of a completed 1-second free
session is reachable; a subsequent background-enter arms a fresh grace
timer (mutating state), and ten further seconds produce a SECOND terminal
transition: the failure alert after the completion alert. -/
theorem terminal_not_gated_bug :
    elapse 1 (running false 1) = completedSt false
    ∧ phase (completedSt false) = Phase.Completed
    ∧ handleAppBackground (completedSt false) ≠ completedSt false
    ∧ (handleAppBackground (completedSt false)).liveGraceTimers = 1
    ∧ (handleAppBackground (completedSt false)).graceTimeRemaining = some 10
    ∧ (elapse 10 (handleAppBackground (completedSt false))).notifs
        = [Notif.sessionComplete, Notif.sessionFailed] := by decide

/-- C5 counterexample: beginning a session whose `trackId` resolves to no
asset does NOT fail the session and does NOT skip the timers: the code
shows the "Music track not found" alert, returns from `initializeAudio`,
and the mount effect still starts the main timer — the phase is `Running`
and the main interval is armed. -/
theorem track_unavailable_counterexample :
    phase (beginSession false 60 "nosuch" none) = Phase.Running
    ∧ (beginSession false 60 "nosuch" none).timerArmed = true
    ∧ (beginSession false 60 "nosuch" none).notifs = [Notif.trackNotFound]
    ∧ (beginSession false 60 "nosuch" none).sound = none := by decide

/-- C5 amended: when `trackId` does not resolve, an error alert
("Music track not found") is shown and no audio is ever loaded, but the
session is NOT transitioned to `Failed`, no cleanup runs, and the main
timer IS started: the session proceeds without audio. -/
theorem track_unavailable_behavior (p : Bool) (m : Int) (tid : String)
    (lr : Option Bool) (h : getTrackAssetById tid = none) :
    beginSession p m tid lr
      = { initState p (m * 60) with
          notifs := [Notif.trackNotFound], timerArmed := true }
    ∧ phase (beginSession p m tid lr) = Phase.Running
    ∧ (beginSession p m tid lr).sound = none := by
  refine ⟨?_, ?_, ?_⟩ <;>
    simp [beginSession, initializeAudio, h, startTimer, initState, phase,
      terminalOutcome, terminalNotif, List.findSome?]

/-- C5 witness: the amended behavior at a concrete unresolvable track. -/
theorem track_unavailable_behavior_witness :
    beginSession false 60 "nosuch" none
      = { initState false (60 * 60) with
          notifs := [Notif.trackNotFound], timerArmed := true }
    ∧ phase (beginSession false 60 "nosuch" none) = Phase.Running :=
  ⟨(track_unavailable_behavior false 60 "nosuch" none rfl).1,
   (track_unavailable_behavior false 60 "nosuch" none rfl).2.1⟩

theorem findSome?_terminal_append_premium (l : List Notif) :
    (l ++ [Notif.premiumFeature]).findSome? terminalNotif
      = l.findSome? terminalNotif := by
  induction l with
  | nil => rfl
  | cons a l ih => cases a <;> simp [List.findSome?, terminalNotif, ih]

theorem phase_append_premium (s : SessionState) :
    phase { s with notifs := s.notifs ++ [Notif.premiumFeature] } = phase s := by
  unfold phase terminalOutcome
  rw [show ({ s with notifs := s.notifs ++ [Notif.premiumFeature] } :
      SessionState).notifs = s.notifs ++ [Notif.premiumFeature] from rfl]
  rw [findSome?_terminal_append_premium]

/-- C6 counterexample: a confirmed skip on a premium running session does
NOT yield the spec's `Skipped` phase — the code runs `stopSession(true)`
and shows the same "Session Complete" success alert as natural completion,
so the reached phase is `Completed`. -/
theorem skip_yields_completed_not_skipped :
    phase (handleSkip true (running true 60)) = Phase.Completed
    ∧ phase (handleSkip true (running true 60)) ≠ Phase.Skipped
    ∧ (handleSkip true (running true 60)).notifs = [Notif.sessionComplete] := by
  decide

/-- C6 amended: skip on a non-premium session only appends the
"Premium Feature" rejection alert and changes no session state (the phase
is unchanged); on a premium session in `Running` or `GraceActive`, a
confirmed skip stops both the main and grace timers and ends the session
with the success terminal outcome, which the code reports as `Completed`
(there is no distinct `Skipped` phase). -/
theorem requestSkip_behavior :
    (∀ (c : Bool) (s : SessionState), s.isPremium = false →
      handleSkip c s = { s with notifs := s.notifs ++ [Notif.premiumFeature] }
      ∧ phase (handleSkip c s) = phase s)
    ∧ (∀ r : Int, handleSkip true (running true r)
        = { completedSt true with timeRemaining := r })
    ∧ (∀ r g : Int,
        (handleSkip true (gracing true r g)).timerArmed = false
        ∧ (handleSkip true (gracing true r g)).graceRefArmed = false
        ∧ (handleSkip true (gracing true r g)).liveGraceTimers = 0
        ∧ phase (gracing true r g) = Phase.GraceActive
        ∧ phase (handleSkip true (gracing true r g)) = Phase.Completed) := by
  refine ⟨?_, ?_, ?_⟩
  · intro c s hs
    have heq : handleSkip c s
        = { s with notifs := s.notifs ++ [Notif.premiumFeature] } := by
      simp [handleSkip, hs]
    exact ⟨heq, by rw [heq, phase_append_premium]⟩
  · intro r
    simp [handleSkip, stopSession, stopSessionRest, clearGraceTimer, running,
      completedSt]
  · intro r g
    refine ⟨?_, ?_, ?_, phase_gracing true r g, ?_⟩ <;>
      simp [handleSkip, stopSession, stopSessionRest, clearGraceTimer, gracing,
        running, phase, terminalOutcome, terminalNotif, List.findSome?]

/-- C6 witness for the amended claim, at concrete inputs: a free user's
skip only adds the rejection alert and leaves the phase unchanged; a
premium confirmed skip from `Running` ends the session as `Completed`. -/
theorem requestSkip_behavior_witness :
    handleSkip true (running false 60)
      = { running false 60 with
          notifs := (running false 60).notifs ++ [Notif.premiumFeature] }
    ∧ phase (handleSkip true (running false 60)) = phase (running false 60)
    ∧ handleSkip true (running true 60)
      = { completedSt true with timeRemaining := 60 } :=
  ⟨(requestSkip_behavior.1 true (running false 60) rfl).1,
   (requestSkip_behavior.1 true (running false 60) rfl).2,
   requestSkip_behavior.2.1 60⟩

/-- C7 is a code bug: the audio teardown inside `stopSession` has no
try/catch (unlike `cleanup`), so a rejecting `stopAsync`/`unloadAsync`
escapes `stopSession`: on a session whose sound handle rejects on
teardown, `stopSession(true)` clears the timers and then the rejection
propagates — `soundRef` is never cleared and NO terminal alert is shown.
`cleanup`, by contrast, swallows the same failure (it is a total function
of the state). -/
theorem stopSession_teardown_error_escapes :
    (stopSession true { running false 60 with sound := some true }).2 = true
    ∧ (stopSession true { running false 60 with sound := some true }).1.notifs
      = []
    ∧ (stopSession true { running false 60 with sound := some true }).1.sound
      = some true
    ∧ (stopSession true { running false 60 with sound := some true }).1
      = { running false 60 with
          sound := some true, timerArmed := false, teardowns := 1 }
    ∧ cleanup { running false 60 with sound := some true }
      = { running false 60 with
          sound := some true, timerArmed := false, teardowns := 1 } := by
  decide

/-- C8 is a code bug: `handleAppBackground` overwrites
`graceTimerRef.current` with a new interval WITHOUT disarming a
pre-existing one.  Two consecutive background-enter events (exactly what
the platform delivers as `'inactive'` followed by `'background'`, both
routed to `handleAppBackground`) leave TWO grace intervals scheduled, and
a subsequent foreground-enter can clear only the newest: one stale armed
interval remains. -/
theorem background_does_not_disarm_previous_grace :
    (handleAppBackground (running false 60)).liveGraceTimers = 1
    ∧ (handleAppStateChange AppStateStatus.background
        (handleAppStateChange AppStateStatus.inactive
          (running false 60))).liveGraceTimers = 2
    ∧ (handleAppForeground (handleAppStateChange AppStateStatus.background
        (handleAppStateChange AppStateStatus.inactive
          (running false 60)))).liveGraceTimers = 1 := by decide

/-- C9 counterexample: starting the timer with `durationSeconds = 0` does
NOT fire completion immediately and DOES schedule a tick: right after
mount the main interval is armed, the phase is still `Running` and no
alert has been shown. -/
theorem zero_duration_counterexample :
    beginSession false 0 "focus1" (some false) = running false 0
    ∧ (beginSession false 0 "focus1" (some false)).timerArmed = true
    ∧ phase (beginSession false 0 "focus1" (some false)) = Phase.Running
    ∧ (beginSession false 0 "focus1" (some false)).notifs = [] := by decide

/-- C9 amended: with `durationSeconds ≤ 0` the code still schedules the
main tick (the session starts in `Running`); completion fires at the FIRST
tick, one second later, leaving `remainingSeconds` at 0 (never
negative). -/
theorem nonpositive_duration_behavior (p : Bool) (d : Int) (hd : d ≤ 0) :
    (running p d).timerArmed = true
    ∧ phase (running p d) = Phase.Running
    ∧ stepSecond (running p d) = completedSt p :=
  ⟨rfl, rfl, stepSecond_running_complete p d (by omega)⟩

/-- C9 witness: the amended behavior at duration 0. -/
theorem nonpositive_duration_behavior_witness :
    (running false 0).timerArmed = true
    ∧ stepSecond (running false 0) = completedSt false :=
  ⟨(nonpositive_duration_behavior false 0 (by decide)).1,
   (nonpositive_duration_behavior false 0 (by decide)).2.2⟩

/-- C10: for every app-state value other than `background`, `inactive` and
`active` (i.e. `unknown` and `extension`), the transition handler is a
no-op: the state is returned unchanged, so no grace timer is armed or
disarmed and no session state changes. -/
theorem appState_other_values_noop (st : AppStateStatus) (s : SessionState)
    (h1 : st ≠ AppStateStatus.background) (h2 : st ≠ AppStateStatus.inactive)
    (h3 : st ≠ AppStateStatus.active) :
    handleAppStateChange st s = s := by
  cases st
  · exact absurd rfl h3
  · exact absurd rfl h1
  · exact absurd rfl h2
  · rfl
  · rfl

/-- C10 witness: the `unknown` app-state value at a concrete running
session. -/
theorem appState_other_values_noop_witness :
    handleAppStateChange AppStateStatus.unknown (running false 5)
      = running false 5 :=
  appState_other_values_noop AppStateStatus.unknown (running false 5)
    (by decide) (by decide) (by decide)
